import Mathlib

/-!
# Shallow embedding of get-time-limited-file-cache (src/index.js)

The module closure of src/index.js owns six per-key maps
(promiseCaches, memoryCaches, memoryTimeLimits, fileTimeLimits,
isFileAccessing, hasQueue).  Every entry point — the `set` and `get`
Proxy traps, the two eviction-timer callbacks, and the completion
callbacks of `fs.readFile` / `fs.writeFile` / `fs.rm` — runs
synchronously to completion over that closure state, so each is
embedded as a pure function on an explicit `CacheState`.  An
asynchronous filesystem call that has been initiated but has not yet
completed is represented as a `PendingOp` value; the corresponding
completion callback is a separate function taking the backend result
as an argument.  Observer invocations (`onSet`, `onMemoryRemove`,
`onFileRemove`) and an escaped `throw` are recorded as an `Event`
list.
-/

namespace TimeLimitedFileCache

/-- Tri-state content of a JavaScript object slot: `undef` models an
absent property (`typeof x === "undefined"`), `null` an explicit
`null` assignment, and `val a` a stored value `a`. -/
inductive JSVal (α : Type) where
  | undef
  | null
  | val (a : α)
  deriving DecidableEq

/-- The JavaScript test `typeof slot !== "undefined"`; note that an
explicit `null` passes it. -/
def JSVal.isDefined {α : Type} : JSVal α → Bool
  | .undef => false
  | .null => true
  | .val _ => true

/-- Keys (the `fileName` parameter) are opaque identifiers. -/
abbrev Key := Nat

/-- Buffer identities.  src/index.js compares Buffers with `!==`,
which is reference identity, so a content value is modelled by its
identity token rather than by its bytes. -/
abbrev Val := Nat

/-- Constructor options of the module: which optional observers are
configured.  The two TTL durations are only ever passed to
`setTimeout` and influence no branch, so timers are modelled by
identity (see `CacheState.nextTimer`) and the durations are omitted. -/
structure Config where
  hasOnSet : Bool
  hasOnMemoryRemove : Bool
  hasOnFileRemove : Bool
  deriving DecidableEq

/-- Observable effects: observer invocations with their arguments, and
`threw` for a `throw error` escaping a filesystem completion callback
(src/index.js lines 113 and 175). -/
inductive Event where
  | onSet (k : Key) (v : Val)
  | onMemoryRemove (k : Key) (v : JSVal Val)
  | onFileRemove (k : Key) (v : Val)
  | threw
  deriving DecidableEq

/-- Defunctionalised `callback` arguments of the `readFile` helper
(src/index.js line 94): the read-then-write continuation inside
`handler.set` (lines 49-55), the read continuation inside
`handler.get` (lines 77-84), and the pre-removal read inside the
file-eviction timer (lines 153-160). -/
inductive ReadCont where
  | forSet (v : Val)
  | forGet (promiseId : Nat)
  | forFileTimer
  deriving DecidableEq

/-- An asynchronous filesystem call that has been initiated and whose
completion callback has not yet run. -/
inductive PendingOp where
  | read (k : Key) (cont : ReadCont)
  | write (k : Key) (v : Val)
  | rm (k : Key)
  deriving DecidableEq

/-- The closure state of one module instance (src/index.js lines
19-35).  `promiseResolved` is the resolution store of the promises
created by `handler.get`: promises are numbered by `nextPromise`, and
a promise id maps to `none` while pending and to `some r` once
`resolve(r)` has run.  Timer handles returned by `setTimeout` are
numbered by `nextTimer`, so re-arming a slot is observable as a fresh
identity.  `isFileAccessing` entries only ever hold `true` or are
deleted, hence a `Bool` (`true` = property present).  `hasQueue`
entries are a content or deleted; the transient `null` written at line
127 is immediately deleted at line 128 with no suspension point in
between, so the pair of lines is modelled as the deletion it amounts
to. -/
structure CacheState where
  promiseCaches : Key → Option Nat
  promiseResolved : Nat → Option (JSVal Val)
  nextPromise : Nat
  memoryCaches : Key → JSVal Val
  memoryTimeLimits : Key → JSVal Nat
  fileTimeLimits : Key → JSVal Nat
  nextTimer : Nat
  isFileAccessing : Key → Bool
  hasQueue : Key → Option Val

/-- Point update of a per-key map. -/
def update {α : Type} (f : Key → α) (k : Key) (a : α) : Key → α :=
  fun q => if q = k then a else f q

/-- The state of a freshly constructed module: all six maps empty. -/
def initState : CacheState where
  promiseCaches := fun _ => none
  promiseResolved := fun _ => none
  nextPromise := 0
  memoryCaches := fun _ => .undef
  memoryTimeLimits := fun _ => .undef
  fileTimeLimits := fun _ => .undef
  nextTimer := 0
  isFileAccessing := fun _ => false
  hasQueue := fun _ => none

/-- Result of running one synchronous segment of control: the new
closure state, the observer events emitted (in order), and the
filesystem calls initiated (in order). -/
structure StepOut where
  st : CacheState
  events : List Event
  ops : List PendingOp

/-- `scheduleRemoveMemoryCache` (src/index.js lines 132-142), the
synchronous part: `clearTimeout` any previous handle and store a fresh
`setTimeout` handle.  The timer body is `memoryTimerFire`. -/
def scheduleRemoveMemoryCache (s : CacheState) (k : Key) : CacheState :=
  { s with
    memoryTimeLimits := update s.memoryTimeLimits k (.val s.nextTimer)
    nextTimer := s.nextTimer + 1 }

/-- `scheduleRemoveFileCache` (src/index.js lines 144-168), the
synchronous part: `clearTimeout` any previous handle and store a fresh
`setTimeout` handle.  The timer body is `fileTimerFire`. -/
def scheduleRemoveFileCache (s : CacheState) (k : Key) : CacheState :=
  { s with
    fileTimeLimits := update s.fileTimeLimits k (.val s.nextTimer)
    nextTimer := s.nextTimer + 1 }

/-- The body of the memory-eviction `setTimeout` callback
(src/index.js lines 136-141): invoke `onMemoryRemove` if configured
with the current `memoryCaches[fileName]`, assign `null` to
`memoryCaches[fileName]` and to `memoryTimeLimits[fileName]`, then
`delete memoryCaches[fileName]` (net effect on the memory slot:
absent). -/
def memoryTimerFire (cfg : Config) (s : CacheState) (k : Key) :
    CacheState × List Event :=
  ({ s with
     memoryCaches := update s.memoryCaches k .undef
     memoryTimeLimits := update s.memoryTimeLimits k .null },
   if cfg.hasOnMemoryRemove then [.onMemoryRemove k (s.memoryCaches k)] else [])

/-- The synchronous part of the `readFile` helper (src/index.js lines
94-97): set `isFileAccessing[fileName] = true` and initiate
`fs.readFile`; the rest of the helper runs at completion
(`readComplete`). -/
def readFileStart (s : CacheState) (k : Key) (cont : ReadCont) :
    CacheState × PendingOp :=
  ({ s with isFileAccessing := update s.isFileAccessing k true },
   .read k cont)

/-- The synchronous part of `writeFile` (src/index.js lines 105-118):
if `memoryCaches[fileName] !== newContent` (reference comparison),
assign the new content to the memory slot, set
`isFileAccessing[fileName] = true`, initiate `fs.writeFile`, and run
`scheduleRemoveMemoryCache`; otherwise do nothing. -/
def writeFileStart (s : CacheState) (k : Key) (v : Val) :
    CacheState × List PendingOp :=
  if s.memoryCaches k ≠ .val v then
    (scheduleRemoveMemoryCache
      { s with
        memoryCaches := update s.memoryCaches k (.val v)
        isFileAccessing := update s.isFileAccessing k true } k,
     [.write k v])
  else (s, [])

/-- The synchronous part of `removeFile` (src/index.js lines 170-173):
set `isFileAccessing[fileName] = true` and initiate `fs.rm`. -/
def removeFileStart (s : CacheState) (k : Key) : CacheState × PendingOp :=
  ({ s with isFileAccessing := update s.isFileAccessing k true },
   .rm k)

/-- `handler.set` (src/index.js lines 37-62): invoke `onSet` if
configured; then, if `typeof isFileAccessing[fileName] !==
"undefined"`, re-assign `true` to the busy slot and either write
directly (memory slot defined) or read first with the
read-then-write continuation; otherwise store the content in
`hasQueue[fileName]`. -/
def setSync (cfg : Config) (s : CacheState) (k : Key) (v : Val) : StepOut :=
  let evs : List Event := if cfg.hasOnSet then [.onSet k v] else []
  if s.isFileAccessing k then
    let s1 := { s with isFileAccessing := update s.isFileAccessing k true }
    if (s1.memoryCaches k).isDefined then
      let (s2, ops) := writeFileStart s1 k v
      ⟨s2, evs, ops⟩
    else
      let (s2, op) := readFileStart s1 k (.forSet v)
      ⟨s2, evs, [op]⟩
  else
    ⟨{ s with hasQueue := update s.hasQueue k (some v) }, evs, []⟩

/-- Result of `handler.get`: the new state, the promise returned to
the caller (by id), and the filesystem calls initiated. -/
structure GetOut where
  st : CacheState
  promise : Nat
  ops : List PendingOp

/-- `handler.get` (src/index.js lines 64-87): return the stored
promise if one exists; else if the memory slot is defined, store and
return a promise immediately resolved with it and re-arm the memory
timer; else store a pending promise and start a backend read with the
`forGet` continuation. -/
def getSync (s : CacheState) (k : Key) : GetOut :=
  match s.promiseCaches k with
  | some pid => ⟨s, pid, []⟩
  | none =>
    if (s.memoryCaches k).isDefined then
      let pid := s.nextPromise
      let s1 := { s with
        promiseCaches := update s.promiseCaches k (some pid)
        promiseResolved := update s.promiseResolved pid (some (s.memoryCaches k))
        nextPromise := pid + 1 }
      ⟨scheduleRemoveMemoryCache s1 k, pid, []⟩
    else
      let pid := s.nextPromise
      let s1 := { s with
        promiseCaches := update s.promiseCaches k (some pid)
        promiseResolved := update s.promiseResolved pid none
        nextPromise := pid + 1 }
      let (s2, op) := readFileStart s1 k (.forGet pid)
      ⟨s2, pid, [op]⟩

/-- `onFileAccessComplete` (src/index.js lines 121-130): delete the
busy slot; if `typeof hasQueue[fileName] !== "undefined"`, assign the
queued content through the Proxy (`proxy[fileName] = ...`, which runs
`handler.set`), then null out and delete the queue slot. -/
def onFileAccessComplete (cfg : Config) (s : CacheState) (k : Key) : StepOut :=
  let s0 := { s with isFileAccessing := update s.isFileAccessing k false }
  match s0.hasQueue k with
  | some v =>
    let r := setSync cfg s0 k v
    ⟨{ r.st with hasQueue := update r.st.hasQueue k none }, r.events, r.ops⟩
  | none => ⟨s0, [], []⟩

/-- The body of the defunctionalised `callback(error, data)` passed to
the `readFile` helper; `res` is `some d` on success and `none` on
error.  `forSet` (src/index.js lines 49-55): store `null` or the data
in the memory slot, then `writeFile` the queued-up content.  `forGet`
(lines 77-84): on error `resolve(null)` and stop; on success store the
data in the memory slot and re-arm both timers — the code never calls
`resolve` on this path.  `forFileTimer` (lines 153-160): on success
invoke `onFileRemove` with the data, then `removeFile`; on error do
nothing. -/
def runReadCont (s : CacheState) (k : Key) (cont : ReadCont)
    (res : Option Val) : StepOut :=
  match cont with
  | .forSet v =>
    let s1 := { s with
      memoryCaches := update s.memoryCaches k
        (match res with | none => .null | some d => .val d) }
    let (s2, ops) := writeFileStart s1 k v
    ⟨s2, [], ops⟩
  | .forGet pid =>
    match res with
    | none =>
      ⟨{ s with promiseResolved := update s.promiseResolved pid (some .null) },
       [], []⟩
    | some d =>
      let s1 := { s with memoryCaches := update s.memoryCaches k (.val d) }
      let s2 := scheduleRemoveMemoryCache s1 k
      ⟨scheduleRemoveFileCache s2 k, [], []⟩
  | .forFileTimer =>
    match res with
    | none => ⟨s, [], []⟩
    | some d =>
      let (s1, op) := removeFileStart s k
      ⟨s1, [.onFileRemove k d], [op]⟩

/-- The `fs.readFile` completion callback installed by the `readFile`
helper (src/index.js lines 97-102): delete the busy slot, run the
defunctionalised `callback(error, data)`, then run
`onFileAccessComplete`. -/
def readComplete (cfg : Config) (s : CacheState) (k : Key)
    (cont : ReadCont) (res : Option Val) : StepOut :=
  let s0 := { s with isFileAccessing := update s.isFileAccessing k false }
  let r1 := runReadCont s0 k cont res
  let r2 := onFileAccessComplete cfg r1.st k
  ⟨r2.st, r1.events ++ r2.events, r1.ops ++ r2.ops⟩

/-- The `fs.writeFile` completion callback (src/index.js lines
112-116): on error, `throw error` — nothing after the throw runs; on
success, run `onFileAccessComplete` then `scheduleRemoveFileCache`. -/
def writeComplete (cfg : Config) (s : CacheState) (k : Key)
    (err : Bool) : StepOut :=
  if err then ⟨s, [.threw], []⟩
  else
    let r := onFileAccessComplete cfg s k
    ⟨scheduleRemoveFileCache r.st k, r.events, r.ops⟩

/-- The `fs.rm` completion callback (src/index.js lines 173-177): on
error, `throw error`; on success, run `onFileAccessComplete`. -/
def rmComplete (cfg : Config) (s : CacheState) (k : Key)
    (err : Bool) : StepOut :=
  if err then ⟨s, [.threw], []⟩
  else onFileAccessComplete cfg s k

/-- The body of the file-eviction `setTimeout` callback (src/index.js
lines 148-166): if `typeof isFileAccessing[fileName] === "undefined"`
then either read-then-remove (when `onFileRemove` is configured) or
remove directly; in every case finish by assigning `null` to and
deleting the timer slot (net effect: absent).  When the key is busy
the guarded block is skipped and nothing is rescheduled. -/
def fileTimerFire (cfg : Config) (s : CacheState) (k : Key) : StepOut :=
  let r : StepOut :=
    if s.isFileAccessing k = false then
      if cfg.hasOnFileRemove then
        let (s1, op) := readFileStart s k .forFileTimer
        ⟨s1, [], [op]⟩
      else
        let (s1, op) := removeFileStart s k
        ⟨s1, [], [op]⟩
    else ⟨s, [], []⟩
  ⟨{ r.st with fileTimeLimits := update r.st.fileTimeLimits k .undef },
   r.events, r.ops⟩

/-- A configuration with every observer installed. -/
def cfgAll : Config := ⟨true, true, true⟩

/-- A configuration with `onSet` and `onMemoryRemove` installed but no
`onFileRemove`. -/
def cfgNoFileObs : Config := ⟨true, true, false⟩

/-! ## Concrete scenario states -/

/-- A fresh instance in which key 0 is marked busy (a backend
operation is in flight) and nothing else is populated. -/
def busyEmpty : CacheState :=
  { initState with isFileAccessing := update initState.isFileAccessing 0 true }

/-- Scenario for the write-queue drain: key 0 is busy, content 5 is
queued in `hasQueue`, and the memory slot holds 9. -/
def c3Pre : CacheState :=
  { initState with
    isFileAccessing := update initState.isFileAccessing 0 true
    hasQueue := update initState.hasQueue 0 (some 5)
    memoryCaches := update initState.memoryCaches 0 (.val 9) }

/-- The completion of the in-flight operation for key 0 on `c3Pre`. -/
def c3Post : StepOut := onFileAccessComplete cfgAll c3Pre 0

/-- A fresh instance whose memory slot for key 0 holds 7. -/
def c4Mem : CacheState :=
  { initState with memoryCaches := update initState.memoryCaches 0 (.val 7) }

/-- First `get(0)` on `c4Mem`: a memory hit. -/
def c4First : GetOut := getSync c4Mem 0

/-- Second `get(0)`, after the first promise has resolved. -/
def c4Second : GetOut := getSync c4First.st 0

/-- The memory-eviction timer for key 0 firing after the first get. -/
def c4Evicted : CacheState := (memoryTimerFire cfgAll c4First.st 0).1

/-- Third `get(0)`, after the memory tier has been evicted. -/
def c4Third : GetOut := getSync c4Evicted 0

/-- Scenario for a failing backend write: key 0 is busy with a write
in flight, content 5 is queued, the memory slot holds 7. -/
def c5Pre : CacheState :=
  { initState with
    isFileAccessing := update initState.isFileAccessing 0 true
    hasQueue := update initState.hasQueue 0 (some 5)
    memoryCaches := update initState.memoryCaches 0 (.val 7) }

/-- The failing `fs.writeFile` completion on `c5Pre`. -/
def c5Post : StepOut := writeComplete cfgAll c5Pre 0 true

/-- Read-your-write scenario, step 1: `set(0, 5)` on a fresh idle
instance. -/
def c6SetStep : StepOut := setSync cfgAll initState 0 5

/-- Read-your-write scenario, step 2: `get(0)` immediately after. -/
def c6GetStep : GetOut := getSync c6SetStep.st 0

/-- Read-your-write scenario, step 3: the backend read completes with
a not-found error (nothing was ever written for key 0). -/
def c6ReadStep : StepOut :=
  readComplete cfgAll c6GetStep.st 0 (.forGet c6GetStep.promise) none

/-- `c4Mem` with key 0 additionally busy and its file timer armed. -/
def c7Busy : CacheState :=
  { c4Mem with
    isFileAccessing := update c4Mem.isFileAccessing 0 true
    fileTimeLimits := update c4Mem.fileTimeLimits 0 (.val 3)
    nextTimer := 4 }

/-- `c4Mem` with key 0 idle and its file timer armed. -/
def c7Idle : CacheState :=
  { c4Mem with
    fileTimeLimits := update c4Mem.fileTimeLimits 0 (.val 3)
    nextTimer := 4 }

/-- A fresh instance in which key 0 is busy and content 5 is queued. -/
def c10Pre : CacheState :=
  { initState with
    isFileAccessing := update initState.isFileAccessing 0 true
    hasQueue := update initState.hasQueue 0 (some 5) }

/-! ## Claims -/

/-- Claim C1.  The claim states that `set(k, v)` queues `v` as the
pending write when an operation for `k` is in flight and performs the
backend write when `k` is idle.  The code does the opposite: the
branch of `handler.set` (src/index.js line 40) tests
`typeof isFileAccessing[fileName] !== "undefined"`, so on a fresh idle
key `set` stores the content in `hasQueue` and issues no I/O at all,
while on a busy key it proceeds straight to the backend (here: a read
with the read-then-write continuation, since no memory value is
known).  This theorem evaluates the code at both inputs. -/
theorem set_branch_inverted_on_idle_key :
    (setSync cfgAll initState 0 5).ops = []
    ∧ (setSync cfgAll initState 0 5).st.hasQueue 0 = some 5
    ∧ (setSync cfgAll initState 0 5).st.isFileAccessing 0 = false
    ∧ (setSync cfgAll busyEmpty 0 5).ops = [.read 0 (.forSet 5)]
    ∧ (setSync cfgAll busyEmpty 0 5).st.hasQueue 0 = none := by
  decide

/-- Claim C2.  On a key with no pending read and no memory value,
`get` stores a new pending promise and issues a backend read; the
claim states that on success with data `d` the promise is resolved
with `d`.  The code's success path (src/index.js lines 81-83) sets
`memoryCaches[fileName]` and re-arms both timers but never calls
`resolve`, so the promise stays pending forever; only the failure path
resolves (with `null`), and it indeed leaves the memory tier empty.
This theorem evaluates the code on both completions of `get(0)` from a
fresh instance. -/
theorem get_read_success_never_resolves :
    (getSync initState 0).promise = 0
    ∧ (getSync initState 0).ops = [.read 0 (.forGet 0)]
    ∧ (readComplete cfgAll (getSync initState 0).st 0 (.forGet 0) (some 7)).st.promiseResolved 0
        = none
    ∧ (readComplete cfgAll (getSync initState 0).st 0 (.forGet 0) (some 7)).st.memoryCaches 0
        = .val 7
    ∧ (readComplete cfgAll (getSync initState 0).st 0 (.forGet 0) (some 7)).st.memoryTimeLimits 0
        = .val 0
    ∧ (readComplete cfgAll (getSync initState 0).st 0 (.forGet 0) (some 7)).st.fileTimeLimits 0
        = .val 1
    ∧ (readComplete cfgAll (getSync initState 0).st 0 (.forGet 0) none).st.promiseResolved 0
        = some .null
    ∧ (readComplete cfgAll (getSync initState 0).st 0 (.forGet 0) none).st.memoryCaches 0
        = .undef := by
  decide

/-- Claim C3.  The claim states that completing the in-flight
operation while a pending write `v` is queued clears the busy state,
takes the queued value, and resubmits it as a new backend write, so
the most recent queued value eventually reaches the backend.  In the
code, `onFileAccessComplete` (src/index.js lines 121-130) first
deletes the busy flag and then resubmits through the Proxy — but
`handler.set`, finding the key no longer busy, takes its queue branch
and merely re-stores the value in `hasQueue`, which
`onFileAccessComplete` then deletes.  The queued value is discarded:
no write is ever issued.  Evaluated on `c3Pre` (busy key 0, queued
content 5). -/
theorem drain_discards_queued_write :
    c3Post.st.isFileAccessing 0 = false
    ∧ c3Post.st.hasQueue 0 = none
    ∧ c3Post.ops = []
    ∧ c3Post.st.memoryCaches 0 = .val 9
    ∧ c3Post.events = [.onSet 0 5] := by
  decide

/-- Claim C4.  The claim states that the stored `pendingRead` promise
is removed once it resolves, so a later `get` re-evaluates the memory
tier or issues a new read.  The code never deletes any entry of
`promiseCaches`: after a memory-hit `get(0)` whose promise is already
resolved, a second `get(0)` returns the very same stored promise with
the state unchanged (not even the memory timer is re-armed), and even
after the memory tier has been evicted a third `get(0)` still returns
the same stale promise and issues no backend read. -/
theorem resolved_promise_never_cleared :
    c4First.st.promiseResolved c4First.promise = some (.val 7)
    ∧ c4Second.promise = c4First.promise
    ∧ c4Second.ops = []
    ∧ c4Second.st = c4First.st
    ∧ c4Evicted.memoryCaches 0 = .undef
    ∧ c4Third.promise = c4First.promise
    ∧ c4Third.ops = [] :=
  ⟨by decide, by decide, by decide, rfl, by decide, by decide, by decide⟩

/-- Claim C5.  The claim states that a failing backend write is
surfaced and still clears the busy state and drains any pending write.
In the code the `fs.writeFile` callback (src/index.js line 113) runs
`throw error` before `onFileAccessComplete`, so the failure is indeed
surfaced (never swallowed) and no other key is touched, but the key
stays busy forever and the queued content is never drained — the key
makes no forward progress.  Evaluated on `c5Pre` (busy key 0 with
queued content 5). -/
theorem write_failure_leaves_key_busy :
    c5Post.events = [.threw]
    ∧ c5Post.st.isFileAccessing 0 = true
    ∧ c5Post.st.hasQueue 0 = some 5
    ∧ c5Post.ops = []
    ∧ c5Post.st = c5Pre :=
  ⟨by decide, by decide, by decide, by decide, rfl⟩

/-- Claim C6 (read-your-write).  The claim states that `set(k, v)`
followed by `get(k)` resolves to `v`.  On a fresh instance, `set(0,
5)` finds key 0 idle and — because of the inverted branch of
`handler.set` — only queues 5, issuing no I/O; `get(0)` then finds
neither a promise nor a memory value and reads the backend, which
fails (nothing was written); the promise resolves to `null` (absent),
and the completion's drain step discards the queued 5 entirely:
afterwards no operation is pending, the queue is empty and the memory
slot is absent, so the value 5 can never be observed. -/
theorem set_then_get_resolves_absent :
    c6SetStep.ops = []
    ∧ c6GetStep.promise = 0
    ∧ c6ReadStep.st.promiseResolved 0 = some .null
    ∧ c6ReadStep.st.hasQueue 0 = none
    ∧ c6ReadStep.st.memoryCaches 0 = .undef
    ∧ c6ReadStep.ops = [] := by
  decide

/-- Claim C7.  The file-eviction timer body: (i) if the key is busy
when it fires, nothing happens beyond clearing the timer slot — no
backend call, no event, no rescheduling (`nextTimer` unchanged, every
other state component untouched); (ii) if the key is idle and
`onFileRemove` is configured, the file is read first, and on a
successful read the observer is invoked with the content and only then
is the `fs.rm` issued; (iii) if the key is idle and no observer is
configured, the removal is issued directly without a read. -/
theorem fileTimerFire_frames_and_acts (cfg : Config) (s : CacheState) (k : Key) :
    (s.isFileAccessing k = true →
      (fileTimerFire cfg s k).ops = []
      ∧ (fileTimerFire cfg s k).events = []
      ∧ (fileTimerFire cfg s k).st.fileTimeLimits k = .undef
      ∧ (fileTimerFire cfg s k).st.nextTimer = s.nextTimer
      ∧ (fileTimerFire cfg s k).st.memoryCaches = s.memoryCaches
      ∧ (fileTimerFire cfg s k).st.memoryTimeLimits = s.memoryTimeLimits
      ∧ (fileTimerFire cfg s k).st.isFileAccessing = s.isFileAccessing
      ∧ (fileTimerFire cfg s k).st.hasQueue = s.hasQueue
      ∧ (fileTimerFire cfg s k).st.promiseCaches = s.promiseCaches)
    ∧ (s.isFileAccessing k = false → cfg.hasOnFileRemove = true →
        s.hasQueue k = none →
      (fileTimerFire cfg s k).ops = [.read k .forFileTimer]
      ∧ (fileTimerFire cfg s k).events = []
      ∧ ∀ d : Val,
          (readComplete cfg (fileTimerFire cfg s k).st k .forFileTimer (some d)).events
            = [.onFileRemove k d]
          ∧ (readComplete cfg (fileTimerFire cfg s k).st k .forFileTimer (some d)).ops
            = [.rm k])
    ∧ (s.isFileAccessing k = false → cfg.hasOnFileRemove = false →
      (fileTimerFire cfg s k).ops = [.rm k]
      ∧ (fileTimerFire cfg s k).events = []) := by
  refine ⟨fun h => ?_, fun h h2 hq => ?_, fun h h2 => ?_⟩
  · simp [fileTimerFire, h, update]
  · simp [fileTimerFire, readComplete, runReadCont, readFileStart,
      removeFileStart, onFileAccessComplete, h, h2, hq, update]
  · simp [fileTimerFire, removeFileStart, h, h2]

/-- Claim C7 witness: the three cases of `fileTimerFire_frames_and_acts`
at concrete states — a busy key 0 (`c7Busy`), an idle key 0 with the
observer configured (`c7Idle` with `cfgAll`), and an idle key 0
without it (`cfgNoFileObs`). -/
theorem fileTimerFire_frames_and_acts_witness :
    ((fileTimerFire cfgAll c7Busy 0).ops = []
      ∧ (fileTimerFire cfgAll c7Busy 0).st.nextTimer = c7Busy.nextTimer)
    ∧ (fileTimerFire cfgAll c7Idle 0).ops = [.read 0 .forFileTimer]
    ∧ (readComplete cfgAll (fileTimerFire cfgAll c7Idle 0).st 0 .forFileTimer (some 7)).events
        = [.onFileRemove 0 7]
    ∧ (fileTimerFire cfgNoFileObs c7Idle 0).ops = [.rm 0] := by
  have hb := fileTimerFire_frames_and_acts cfgAll c7Busy 0
  have hi := fileTimerFire_frames_and_acts cfgAll c7Idle 0
  have hn := fileTimerFire_frames_and_acts cfgNoFileObs c7Idle 0
  exact ⟨⟨(hb.1 rfl).1, (hb.1 rfl).2.2.2.1⟩,
    (hi.2.1 rfl rfl rfl).1,
    ((hi.2.1 rfl rfl rfl).2.2 7).1,
    (hn.2.2 rfl rfl).1⟩

/-- Claim C8.  On a key with no stored promise and a memory value `v`,
`get` returns a promise already resolved with `v`, issues no backend
call, re-arms the memory timer (a fresh `setTimeout` handle), and
leaves the file timer — and the memory and busy maps — untouched. -/
theorem get_memory_hit_debounces_memory_only (s : CacheState) (k : Key) (v : Val)
    (h1 : s.promiseCaches k = none) (h2 : s.memoryCaches k = .val v) :
    (getSync s k).st.promiseResolved (getSync s k).promise = some (.val v)
    ∧ (getSync s k).ops = []
    ∧ (getSync s k).st.memoryTimeLimits k = .val s.nextTimer
    ∧ (getSync s k).st.nextTimer = s.nextTimer + 1
    ∧ (getSync s k).st.fileTimeLimits = s.fileTimeLimits
    ∧ (getSync s k).st.memoryCaches = s.memoryCaches
    ∧ (getSync s k).st.isFileAccessing = s.isFileAccessing
    ∧ (getSync s k).st.hasQueue = s.hasQueue := by
  simp [getSync, h1, h2, JSVal.isDefined, scheduleRemoveMemoryCache, update]

/-- Claim C8 witness: `get_memory_hit_debounces_memory_only` at the
concrete state `c4Mem` (memory slot of key 0 holds 7, nothing else
populated). -/
theorem get_memory_hit_debounces_memory_only_witness :
    c4Mem.promiseCaches 0 = none
    ∧ c4Mem.memoryCaches 0 = .val 7
    ∧ (getSync c4Mem 0).st.promiseResolved (getSync c4Mem 0).promise = some (.val 7)
    ∧ (getSync c4Mem 0).ops = []
    ∧ (getSync c4Mem 0).st.memoryTimeLimits 0 = .val c4Mem.nextTimer
    ∧ (getSync c4Mem 0).st.fileTimeLimits = c4Mem.fileTimeLimits := by
  have h := get_memory_hit_debounces_memory_only c4Mem 0 7 rfl rfl
  exact ⟨rfl, rfl, h.1, h.2.1, h.2.2.1, h.2.2.2.2.1⟩

/-- Claim C9.  The memory-eviction timer body invokes
`onMemoryRemove` (when configured) with the current memory value and
deletes the memory entry, and it consults no busy state: it behaves
identically for any contents of `isFileAccessing` — in particular it
fires this way while a backend operation for the key is in flight —
and leaves the busy map itself unchanged. -/
theorem memory_evict_ignores_busy (cfg : Config) (s : CacheState) (k : Key) :
    (memoryTimerFire cfg s k).2
      = (if cfg.hasOnMemoryRemove then [Event.onMemoryRemove k (s.memoryCaches k)] else [])
    ∧ (memoryTimerFire cfg s k).1.memoryCaches k = .undef
    ∧ (memoryTimerFire cfg s k).1.memoryTimeLimits k = .null
    ∧ (memoryTimerFire cfg s k).1.isFileAccessing = s.isFileAccessing
    ∧ (memoryTimerFire cfg s k).1.fileTimeLimits = s.fileTimeLimits
    ∧ (memoryTimerFire cfg s k).1.hasQueue = s.hasQueue
    ∧ ∀ b : Key → Bool,
        (memoryTimerFire cfg { s with isFileAccessing := b } k).2
          = (memoryTimerFire cfg s k).2
        ∧ (memoryTimerFire cfg { s with isFileAccessing := b } k).1.memoryCaches k
          = .undef := by
  simp [memoryTimerFire, update]

/-- Claim C10.  When completing a backend operation drains a queued
pending write, the resubmission goes through the Proxy `set` trap, so
`onSet` is invoked again with the same key and the same content — one
caller-initiated `set` can fire `onSet` more than once. -/
theorem drain_refires_onSet (cfg : Config) (s : CacheState) (k : Key) (v : Val)
    (h1 : s.hasQueue k = some v) (h2 : cfg.hasOnSet = true) :
    (onFileAccessComplete cfg s k).events = [.onSet k v] := by
  simp [onFileAccessComplete, setSync, update, h1, h2]

/-- Claim C10 witness: `drain_refires_onSet` at the concrete state
`c10Pre` (busy key 0 with content 5 queued). -/
theorem drain_refires_onSet_witness :
    c10Pre.hasQueue 0 = some 5
    ∧ cfgAll.hasOnSet = true
    ∧ (onFileAccessComplete cfgAll c10Pre 0).events = [.onSet 0 5] :=
  ⟨rfl, rfl, drain_refires_onSet cfgAll c10Pre 0 5 rfl rfl⟩

end TimeLimitedFileCache
